import Mathlib

/-! Shallow embedding of `src/main.rs` of the battista repository: the statistics
engine (`get_stats` and its helpers). Dates are modelled as year/month/day
records; `chrono` date subtraction, comparison and day-shifts act through
`toDays`, a proleptic-Gregorian day count. Machine integers (`i64`, `u64`) are
modelled as `Int`/`Nat`; the `f64` values produced by the divisions in
`calc_averages` are idealized as exact rationals, written with
`Rat.divInt`-based helpers so that concrete runs reduce in the kernel.
HashMaps are modelled as insertion-ordered association lists; the stable `sort_by` is
modelled by the stable `List.insertionSort` with the corresponding comparator
(a stable sort for a fixed total preorder is a unique function, so any stable
sort gives the same output as the source's stable merge sort). -/

/-- Calendar date as stored by `chrono::NaiveDate`: astronomical year,
1-based month, 1-based day. -/
structure Date where
  y : Int
  m : Nat
  d : Nat
deriving DecidableEq

/-- Proleptic-Gregorian leap-year test. -/
def isLeap (y : Int) : Bool := y % 4 == 0 && (y % 100 != 0 || y % 400 == 0)

/-- Days in the months strictly before month `m` (1-based) of a year with leap
flag `leap`. -/
def daysBeforeMonth (leap : Bool) (m : Nat) : Int :=
  (match m with
   | 1 => 0 | 2 => 31 | 3 => 59 | 4 => 90 | 5 => 120 | 6 => 151
   | 7 => 181 | 8 => 212 | 9 => 243 | 10 => 273 | 11 => 304 | _ => 334)
  + (if 3 ≤ m ∧ leap = true then 1 else 0)

/-- Signed count of leap years in `[1, y]` (`/` on `Int` is floor division for
these positive divisors, so the proleptic extension to negative years is
correct). -/
def leapCount (y : Int) : Int := y / 4 - y / 100 + y / 400

/-- Day number of a date (days since 0001-01-01). `chrono` date subtraction,
comparison, `min`/`max` and `TimeDelta::days` shifts all act through this
count. -/
def toDays (dt : Date) : Int :=
  365 * (dt.y - 1) + leapCount (dt.y - 1) + daysBeforeMonth (isLeap dt.y) dt.m + ((dt.d : Int) - 1)

/-- `NaiveDate::year_ce()`: `(true, y)` for CE years (`y ≥ 1`), `(false, 1 - y)`
otherwise. -/
def year_ce (dt : Date) : Bool × Nat :=
  if 0 < dt.y then (true, dt.y.toNat) else (false, (1 - dt.y).toNat)

/-- `year_as_i32` from `src/main.rs`. -/
def year_as_i32 (p : Bool × Nat) : Int := if p.1 then (p.2 : Int) else -(p.2 : Int)

/-- `days_in_month` from `src/main.rs`: length of the month containing `dt`, by
date subtraction between the first day of the next month (December rolling into
January of the next year) and the first day of this month. The 1-based month
`month0() + 1` is `dt.m`. -/
def days_in_month (dt : Date) : Int :=
  let year := year_as_i32 (year_ce dt)
  let month := dt.m
  toDays ⟨year + (if month == 12 then 1 else 0), (month % 12) + 1, 1⟩ - toDays ⟨year, month, 1⟩

/-- `days_in_year` from `src/main.rs`. -/
def days_in_year (dt : Date) : Int :=
  let year := year_as_i32 (year_ce dt)
  let month := dt.m
  toDays ⟨year + 1, month, 1⟩ - toDays ⟨year, month, 1⟩

/-- `Category` enum from `src/main.rs` (including the source's spelling of
`Entrateinment`). -/
inductive Category
  | Books | Charity | Clothing | Grocery | Education | Entrateinment
  | Fine | Gift | Healthcare | Hobby | Insurance | Rent | Restaurants
  | Savings | Shopping | Sport | Taxes | Transportation | Travel | Utilities
  | Miscellaneous (label : String)
  | Unknown
deriving DecidableEq

/-- `impl Display for Category` from `src/main.rs`. -/
def Category.display : Category → String
  | .Books => "Books"
  | .Charity => "Charity"
  | .Clothing => "Clothing"
  | .Grocery => "Grocery"
  | .Education => "Education"
  | .Entrateinment => "Entrateinment"
  | .Fine => "Fine"
  | .Gift => "Gift"
  | .Healthcare => "Healthcare"
  | .Hobby => "Hobby"
  | .Insurance => "Insurance"
  | .Rent => "Rent"
  | .Restaurants => "Restaurants"
  | .Savings => "Savings"
  | .Shopping => "Shopping"
  | .Sport => "Sport"
  | .Taxes => "Taxes"
  | .Transportation => "Transportation"
  | .Travel => "Travel"
  | .Utilities => "Utilities"
  | .Miscellaneous a => if a.length == 0 then "Miscellaneous" else "Miscellaneous (" ++ a ++ ")"
  | .Unknown => "Unknown"

/-- `Category::iter()` (strum `EnumIter`): every variant in declaration order,
the data-carrying `Miscellaneous` holding the default (empty) label. -/
def categoryIter : List Category :=
  [.Books, .Charity, .Clothing, .Grocery, .Education, .Entrateinment, .Fine, .Gift,
   .Healthcare, .Hobby, .Insurance, .Rent, .Restaurants, .Savings, .Shopping, .Sport,
   .Taxes, .Transportation, .Travel, .Utilities, .Miscellaneous (""), .Unknown]

/-- `impl From(&str) for Category` from `src/main.rs`: the first iterated
variant whose display text equals `s`, else `Miscellaneous(s)`. -/
def Category.fromStr (s : String) : Category :=
  (categoryIter.find? (fun c => c.display == s)).getD (.Miscellaneous s)

/-- `Transaction` from `src/main.rs` (`value` is `i64` minor units). -/
structure Transaction where
  value : Int
  date : Date
  category : Category
  end_date : Date
  payment_method : String
  note : String
deriving DecidableEq

/-- `TempStats` accumulator from `src/main.rs`; the three `HashMap`s are
modelled as insertion-ordered association lists. -/
structure TempStats where
  per_day : ℚ
  total : Int
  by_category : List (Category × Int)
  by_payment_method : List (String × Int)
  by_note : List (String × Int)
  average_transaction : ℚ
  transaction_count : Nat
deriving DecidableEq

/-- `TempStats::default()`. -/
def TempStats.default : TempStats := ⟨0, 0, [], [], [], 0, 0⟩

/-- HashMap entry update used by `TempStats::update`: insert `0` if the key is
absent, then add `v`. -/
def bump {κ : Type} [DecidableEq κ] (m : List (κ × Int)) (k : κ) (v : Int) : List (κ × Int) :=
  match m with
  | [] => [(k, v)]
  | (k1, v1) :: rest => if k1 = k then (k1, v1 + v) :: rest else (k1, v1) :: bump rest k v

/-- `TempStats::update` from `src/main.rs`. -/
def TempStats.update (s : TempStats) (e : Transaction) : TempStats :=
  { s with
    total := s.total + e.value
    by_category := bump s.by_category e.category e.value
    by_payment_method := bump s.by_payment_method e.payment_method e.value
    by_note := bump s.by_note e.note e.value
    transaction_count := s.transaction_count + 1 }

/-- Exact-rational division of `a` by the integer `d`, idealizing the `f64`
divisions of `calc_averages`; written with `Rat.divInt` so concrete instances
reduce in the kernel. The lemma `divByInt_eq` identifies it with `a / (d : ℚ)`. -/
def divByInt (a : ℚ) (d : Int) : ℚ := Rat.divInt a.num ((a.den : Int) * d)

/-- `TempStats::get_total`: the running total in major units
(`self.total as f64 / 100.0`). -/
def TempStats.get_total (s : TempStats) : ℚ := mkRat s.total 100

/-- `TempStats::calc_averages` from `src/main.rs`: contains no assertion and
divides unconditionally, whatever `days` and `transaction_count` are. -/
def TempStats.calc_averages (s : TempStats) (days : Int) : TempStats :=
  { s with
    per_day := divByInt s.get_total days
    average_transaction := divByInt s.get_total (s.transaction_count : Int) }

/-- `Stats` from `src/main.rs`: note that `total` and the three breakdown lists
still hold `i64` minor units; only `per_day` and `average_transaction` are
`f64`. -/
structure Stats where
  per_day : ℚ
  total : Int
  by_category : List (Category × Int)
  by_payment_method : List (String × Int)
  by_note : List (String × Int)
  average_transaction : ℚ
  transaction_count : Nat
deriving DecidableEq

/-- The sort performed by `into_stats`:
`sort_by(|x, y| x.1.partial_cmp(&y.1).unwrap().reverse())`, i.e. a stable sort
putting larger values first. -/
def sortValDesc {κ : Type} (l : List (κ × Int)) : List (κ × Int) :=
  List.insertionSort (fun x y => y.2 ≤ x.2) l

/-- `TempStats::into_stats` from `src/main.rs`: sorts the three breakdowns by
descending value and repackages every field unchanged. The source collects each
`HashMap` iterator — whose order is randomized per process — into a `Vec` and
stable-sorts it; this definition fixes the insertion order as the iteration
order, which is one admissible run. `into_stats_order` below models an
arbitrary iteration order. -/
def TempStats.into_stats (s : TempStats) : Stats :=
  { per_day := s.per_day
    total := s.total
    by_category := sortValDesc s.by_category
    by_payment_method := sortValDesc s.by_payment_method
    by_note := sortValDesc s.by_note
    average_transaction := s.average_transaction
    transaction_count := s.transaction_count }

/-- What `into_stats` computes when the randomized `HashMap` iterators happen to
produce the entry orders `lc`, `lp`, `ln` (each an arbitrary permutation of the
accumulated entries): the source stable-sorts exactly those sequences, so tied
subtotals stay in iteration order. `TempStats.into_stats` is the special case
where each order is the insertion order. -/
def into_stats_order (s : TempStats) (lc : List (Category × Int))
    (lp ln : List (String × Int)) : Stats :=
  { per_day := s.per_day
    total := s.total
    by_category := sortValDesc lc
    by_payment_method := sortValDesc lp
    by_note := sortValDesc ln
    average_transaction := s.average_transaction
    transaction_count := s.transaction_count }

/-- `StatsCollection` from `src/main.rs`. -/
structure StatsCollection where
  yearly : List (Int × Stats)
  monthly : List ((Int × Nat) × Stats)
  last_365_days : Stats
  last_30_days : Stats
  last_7_days : Stats
deriving DecidableEq

/-- `TempStatsCollection` from `src/main.rs`; the two `HashMap`s are modelled as
insertion-ordered association lists. -/
structure TempStatsCollection where
  yearly : List (Int × TempStats)
  monthly : List ((Int × Nat) × TempStats)
  last_365_days : TempStats
  last_30_days : TempStats
  last_7_days : TempStats

/-- `TempStatsCollection::default()`. -/
def TempStatsCollection.default : TempStatsCollection :=
  ⟨[], [], TempStats.default, TempStats.default, TempStats.default⟩

/-- Lazy bucket creation of `get_stats`: `contains_key` check, `insert(default)`
if absent, then `get_mut().update(transaction)`. -/
def updateAt {κ : Type} [DecidableEq κ] (m : List (κ × TempStats)) (k : κ) (t : Transaction) :
    List (κ × TempStats) :=
  match m with
  | [] => [(k, TempStats.default.update t)]
  | (k1, v) :: rest => if k1 = k then (k1, v.update t) :: rest else (k1, v) :: updateAt rest k t

/-- One iteration of the accumulation loop of `get_stats`; `todayDays` is the
day number of the date the source reads internally via
`Local::now().date_naive()`. -/
def tscUpdate (todayDays : Int) (tsc : TempStatsCollection) (t : Transaction) :
    TempStatsCollection :=
  let year := year_as_i32 (year_ce t.date)
  let month := t.date.m
  { yearly := updateAt tsc.yearly year t
    monthly := updateAt tsc.monthly (year, month) t
    last_7_days :=
      if todayDays - toDays t.date ≤ 7 then tsc.last_7_days.update t else tsc.last_7_days
    last_30_days :=
      if todayDays - toDays t.date ≤ 30 then tsc.last_30_days.update t else tsc.last_30_days
    last_365_days :=
      if todayDays - toDays t.date ≤ 365 then tsc.last_365_days.update t else tsc.last_365_days }

/-- Day number of `month_end` in the monthly finalize loop of `get_stats`: the
first day of the following month (December rolling into January of `y + 1`)
minus one day. -/
def nominal_month_end (y : Int) (m : Nat) : Int :=
  toDays ⟨y + (if m == 12 then 1 else 0), (m % 12) + 1, 1⟩ - 1

/-- Finalization of one yearly bucket in `get_stats` (note the source's period
end: the last day of the year, `from_ymd(k + 1, 1, 1) - days(1)`, clipped by
`today + 1`). -/
def finalizeYear (startDays todayDays : Int) (kv : Int × TempStats) : Int × TempStats :=
  let year_start := toDays ⟨kv.1, 1, 1⟩
  let period_start := max year_start startDays
  let period_end := min (toDays ⟨kv.1 + 1, 1, 1⟩ - 1) (todayDays + 1)
  let days := days_in_year ⟨kv.1, 1, 1⟩
  let days2 := period_end - period_start
  (kv.1, kv.2.calc_averages (min days days2))

/-- Finalization of one monthly bucket in `get_stats` (period end
`month_end + 1 day` clipped by `today + 1`). -/
def finalizeMonth (startDays todayDays : Int) (kv : (Int × Nat) × TempStats) :
    (Int × Nat) × TempStats :=
  let month_start := toDays ⟨kv.1.1, kv.1.2, 1⟩
  let month_end := nominal_month_end kv.1.1 kv.1.2
  let period_start := max month_start startDays
  let period_end := min (month_end + 1) (todayDays + 1)
  let days := days_in_month ⟨kv.1.1, kv.1.2, 1⟩
  let days2 := period_end - period_start
  (kv.1, kv.2.calc_averages (min days days2))

/-- `TempStatsCollection::into_stats_collection` from `src/main.rs`: convert
every accumulator, sort the yearly list by year and the monthly list by
`year * 12 + month`. -/
def TempStatsCollection.into_stats_collection (tsc : TempStatsCollection) : StatsCollection :=
  let yearly := List.insertionSort (fun x y => x.1 ≤ y.1)
    (tsc.yearly.map (fun p => (p.1, p.2.into_stats)))
  let monthly := List.insertionSort
    (fun x y => x.1.1 * 12 + (x.1.2 : Int) ≤ y.1.1 * 12 + (y.1.2 : Int))
    (tsc.monthly.map (fun p => (p.1, p.2.into_stats)))
  { yearly := yearly
    monthly := monthly
    last_7_days := tsc.last_7_days.into_stats
    last_30_days := tsc.last_30_days.into_stats
    last_365_days := tsc.last_365_days.into_stats }

/-- `get_stats` from `src/main.rs`. The date the source reads internally via
`Local::now().date_naive()` is modelled as the explicit argument `today`; the
running minimum `start` is only read after the accumulation loop, so it is
computed by an equivalent separate fold. -/
def get_stats (transactions : List Transaction) (today : Date) : StatsCollection :=
  let todayDays := toDays today
  let startDays := transactions.foldl (fun s t => min s (toDays t.date)) todayDays
  let tsc := transactions.foldl (tscUpdate todayDays) TempStatsCollection.default
  let tsc2 : TempStatsCollection :=
    { yearly := tsc.yearly.map (finalizeYear startDays todayDays)
      monthly := tsc.monthly.map (finalizeMonth startDays todayDays)
      last_7_days := tsc.last_7_days.calc_averages 7
      last_30_days := tsc.last_30_days.calc_averages 30
      last_365_days := tsc.last_365_days.calc_averages 365 }
  tsc2.into_stats_collection

/-- Snapshot shape for the spec's reading of `into_stats`: monetary subtotals
in major units. -/
structure StatsSpecMajor where
  total : ℚ
  by_category : List (Category × ℚ)
deriving DecidableEq

/-- The spec's words for `into_stats` (its section 4.1): convert every
minor-unit subtotal to a major-unit value by dividing by 100, sorted by
descending value. Stated only to be compared against `TempStats.into_stats`,
which performs no such division. -/
def into_stats_spec_major (s : TempStats) : StatsSpecMajor :=
  { total := mkRat s.total 100
    by_category := (sortValDesc s.by_category).map (fun p => (p.1, mkRat p.2 100)) }

/-- Reference date 2024-02-15 used by the concrete scenarios. -/
def exToday : Date := ⟨2024, 2, 15⟩

/-- Transaction for the concrete scenarios: `end_date` (unused by `get_stats`),
payment method and note are defaulted. -/
def mkTx (v : Int) (dt : Date) (c : String) : Transaction :=
  { value := v, date := dt, category := Category.fromStr c, end_date := dt,
    payment_method := "", note := "" }

/-- The three transactions of the spec's worked example. -/
def exTxs : List Transaction :=
  [mkTx 100 ⟨2024, 1, 10⟩ ("Food"), mkTx 250 ⟨2024, 1, 20⟩ ("Food"),
   mkTx 500 ⟨2024, 2, 1⟩ ("Rent")]

/-- A single transaction covering all of no rolling window: dated 2020-01-01. -/
def ex5Txs : List Transaction := [mkTx 100 ⟨2020, 1, 1⟩ ("Food")]

/-- A single transaction on 2023-01-01, so that the 2023 yearly bucket has data
from the first day of the year onward. -/
def ex2Txs : List Transaction := [mkTx 100 ⟨2023, 1, 1⟩ ("Food")]

/-- A single transaction on 2024-02-14. -/
def ex8Txs : List Transaction := [mkTx 100 ⟨2024, 2, 14⟩ ("Food")]

/-- A second reference date, 2024-03-15. -/
def ex8Today : Date := ⟨2024, 3, 15⟩

/-- Accumulator folded from the two January transactions of the worked
example. -/
def ex4Temp : TempStats :=
  (TempStats.default.update (mkTx 100 ⟨2024, 1, 10⟩ ("Food"))).update
    (mkTx 250 ⟨2024, 1, 20⟩ ("Food"))

/-- Accumulator with two tied category subtotals (`Rent` 100 and `Books` 100),
whose breakdown order therefore depends on the `HashMap` iteration order. -/
def exTiedTemp : TempStats :=
  (TempStats.default.update (mkTx 100 ⟨2024, 1, 10⟩ ("Rent"))).update
    (mkTx 100 ⟨2024, 1, 20⟩ ("Books"))

/-- Sum of the values of an association list. -/
def sumVals {κ : Type} (l : List (κ × Int)) : Int := (l.map Prod.snd).sum

lemma divByInt_eq (a : ℚ) (d : Int) : divByInt a d = a / (d : ℚ) := by
  rw [divByInt, Rat.divInt_eq_div]
  push_cast
  rw [div_mul_eq_div_div]
  congr 1
  rw [Rat.num_div_den]

lemma get_total_eq (s : TempStats) : s.get_total = (s.total : ℚ) / 100 := by
  rw [TempStats.get_total, Rat.mkRat_eq_div]
  norm_num

lemma sumVals_bump {κ : Type} [DecidableEq κ] (m : List (κ × Int)) (k : κ) (v : Int) :
    sumVals (bump m k v) = sumVals m + v := by
  induction m with
  | nil => simp [bump, sumVals]
  | cons hd tl ih =>
      obtain ⟨k1, v1⟩ := hd
      by_cases h : k1 = k
      · simp [bump, h, sumVals]
        ring
      · simp only [bump, if_neg h, sumVals, List.map_cons, List.sum_cons] at ih ⊢
        omega

lemma sumVals_perm {κ : Type} {l1 l2 : List (κ × Int)} (h : l1.Perm l2) :
    sumVals l1 = sumVals l2 :=
  (h.map Prod.snd).sum_eq

/-- Bucket invariant: the category subtotals add up to the running total. -/
def catOk (s : TempStats) : Prop := sumVals s.by_category = s.total

/-- The same invariant on a finished snapshot. -/
def catOkS (s : Stats) : Prop := sumVals s.by_category = s.total

lemma catOk_default : catOk TempStats.default := rfl

lemma catOk_update {s : TempStats} (t : Transaction) (h : catOk s) : catOk (s.update t) := by
  simp only [catOk, TempStats.update, sumVals_bump] at h ⊢
  omega

lemma catOk_calc {s : TempStats} (d : Int) (h : catOk s) : catOk (s.calc_averages d) := h

lemma sortValDesc_perm {κ : Type} (l : List (κ × Int)) : (sortValDesc l).Perm l :=
  List.perm_insertionSort _ l

lemma catOk_into {s : TempStats} (h : catOk s) : catOkS s.into_stats := by
  simp only [catOkS, TempStats.into_stats, sumVals_perm (sortValDesc_perm s.by_category)]
  exact h

/-- Invariant of the whole accumulation state. -/
def allCatOk (tsc : TempStatsCollection) : Prop :=
  (∀ p ∈ tsc.yearly, catOk p.2) ∧ (∀ p ∈ tsc.monthly, catOk p.2) ∧
    catOk tsc.last_7_days ∧ catOk tsc.last_30_days ∧ catOk tsc.last_365_days

lemma updateAt_catOk {κ : Type} [DecidableEq κ] {m : List (κ × TempStats)} {k : κ}
    {t : Transaction} (h : ∀ p ∈ m, catOk p.2) : ∀ p ∈ updateAt m k t, catOk p.2 := by
  induction m with
  | nil =>
      intro p hp
      simp only [updateAt, List.mem_singleton] at hp
      subst hp
      exact catOk_update t catOk_default
  | cons hd tl ih =>
      obtain ⟨k1, v⟩ := hd
      intro p hp
      by_cases hk : k1 = k
      · simp only [updateAt, if_pos hk, List.mem_cons] at hp
        rcases hp with hp | hp
        · subst hp
          exact catOk_update t (h (k1, v) (List.mem_cons_self _ _))
        · exact h p (List.mem_cons_of_mem _ hp)
      · simp only [updateAt, if_neg hk, List.mem_cons] at hp
        rcases hp with hp | hp
        · subst hp
          exact h (k1, v) (List.mem_cons_self _ _)
        · exact ih (fun q hq => h q (List.mem_cons_of_mem _ hq)) p hp

lemma tscUpdate_allCatOk {tsc : TempStatsCollection} {D : Int} {t : Transaction}
    (h : allCatOk tsc) : allCatOk (tscUpdate D tsc t) := by
  obtain ⟨h1, h2, h3, h4, h5⟩ := h
  refine ⟨updateAt_catOk h1, updateAt_catOk h2, ?_, ?_, ?_⟩ <;>
    · simp only [tscUpdate]
      split
      · exact catOk_update t (by assumption)
      · assumption

lemma foldl_allCatOk (txs : List Transaction) (D : Int) :
    ∀ tsc : TempStatsCollection, allCatOk tsc → allCatOk (txs.foldl (tscUpdate D) tsc) := by
  induction txs with
  | nil => exact fun tsc h => h
  | cons t ts ih => exact fun tsc h => ih (tscUpdate D tsc t) (tscUpdate_allCatOk h)

lemma allCatOk_default : allCatOk TempStatsCollection.default :=
  ⟨by simp [TempStatsCollection.default], by simp [TempStatsCollection.default],
   catOk_default, catOk_default, catOk_default⟩

lemma foldl_last7 (txs : List Transaction) (D : Int) (tsc : TempStatsCollection) :
    (txs.foldl (tscUpdate D) tsc).last_7_days =
      (txs.filter (fun t => decide (D - toDays t.date ≤ 7))).foldl TempStats.update
        tsc.last_7_days := by
  induction txs generalizing tsc with
  | nil => rfl
  | cons t ts ih =>
      simp only [List.foldl_cons, List.filter_cons, decide_eq_true_eq]
      rw [ih]
      by_cases h : D - toDays t.date ≤ 7
      · rw [if_pos h, List.foldl_cons]
        congr 1
        simp [tscUpdate, h]
      · rw [if_neg h]
        congr 1
        simp [tscUpdate, h]

lemma foldl_last30 (txs : List Transaction) (D : Int) (tsc : TempStatsCollection) :
    (txs.foldl (tscUpdate D) tsc).last_30_days =
      (txs.filter (fun t => decide (D - toDays t.date ≤ 30))).foldl TempStats.update
        tsc.last_30_days := by
  induction txs generalizing tsc with
  | nil => rfl
  | cons t ts ih =>
      simp only [List.foldl_cons, List.filter_cons, decide_eq_true_eq]
      rw [ih]
      by_cases h : D - toDays t.date ≤ 30
      · rw [if_pos h, List.foldl_cons]
        congr 1
        simp [tscUpdate, h]
      · rw [if_neg h]
        congr 1
        simp [tscUpdate, h]

lemma foldl_last365 (txs : List Transaction) (D : Int) (tsc : TempStatsCollection) :
    (txs.foldl (tscUpdate D) tsc).last_365_days =
      (txs.filter (fun t => decide (D - toDays t.date ≤ 365))).foldl TempStats.update
        tsc.last_365_days := by
  induction txs generalizing tsc with
  | nil => rfl
  | cons t ts ih =>
      simp only [List.foldl_cons, List.filter_cons, decide_eq_true_eq]
      rw [ih]
      by_cases h : D - toDays t.date ≤ 365
      · rw [if_pos h, List.foldl_cons]
        congr 1
        simp [tscUpdate, h]
      · rw [if_neg h]
        congr 1
        simp [tscUpdate, h]

lemma foldl_update_count (l : List Transaction) (s : TempStats) :
    (l.foldl TempStats.update s).transaction_count = s.transaction_count + l.length := by
  induction l generalizing s with
  | nil => simp
  | cons t ts ih =>
      simp [List.foldl_cons, ih, TempStats.update]
      omega

lemma year_roundtrip {y : Int} (h : 1 ≤ y) (m d : Nat) :
    year_as_i32 (year_ce ⟨y, m, d⟩) = y := by
  simp only [year_ce, year_as_i32]
  rw [if_pos (by omega : (0:Int) < y)]
  simp [Int.toNat_of_nonneg (by omega : (0:Int) ≤ y)]

lemma leapCount_succ (y : Int) : leapCount y - leapCount (y - 1) = if isLeap y then 1 else 0 := by
  have h4 : y / 4 - (y - 1) / 4 = if y % 4 = 0 then 1 else 0 := by split <;> omega
  have h100 : y / 100 - (y - 1) / 100 = if y % 100 = 0 then 1 else 0 := by split <;> omega
  have h400 : y / 400 - (y - 1) / 400 = if y % 400 = 0 then 1 else 0 := by split <;> omega
  have hL : isLeap y = true ↔ (y % 4 = 0 ∧ (y % 100 ≠ 0 ∨ y % 400 = 0)) := by
    simp [isLeap]
  simp only [leapCount]
  by_cases m4 : y % 4 = 0 <;> by_cases m100 : y % 100 = 0 <;> by_cases m400 : y % 400 = 0 <;>
    simp only [m4, m100, m400, if_true, if_false, ite_true, ite_false, if_pos, if_neg,
      not_false_iff, hL] at h4 h100 h400 <;>
    simp [hL, m4, m100, m400] <;>
    omega

lemma sortValDesc_sorted {κ : Type} (l : List (κ × Int)) :
    List.Pairwise (fun a b => b.2 ≤ a.2) (sortValDesc l) := by
  haveI : IsTotal (κ × Int) (fun a b => b.2 ≤ a.2) := ⟨fun a b => le_total b.2 a.2⟩
  haveI : IsTrans (κ × Int) (fun a b => b.2 ≤ a.2) := ⟨fun a b c hab hbc => le_trans hbc hab⟩
  exact List.sorted_insertionSort _ _

/-- The three rolling-window buckets of `get_stats`, characterized as folds over
the membership filter `today - date ≤ N`, finalized with denominator `N`. -/
lemma get_stats_rolling (txs : List Transaction) (today : Date) :
    (get_stats txs today).last_7_days =
      ((((txs.filter (fun t => decide (toDays today - toDays t.date ≤ 7))).foldl
        TempStats.update TempStats.default).calc_averages 7).into_stats) ∧
    (get_stats txs today).last_30_days =
      ((((txs.filter (fun t => decide (toDays today - toDays t.date ≤ 30))).foldl
        TempStats.update TempStats.default).calc_averages 30).into_stats) ∧
    (get_stats txs today).last_365_days =
      ((((txs.filter (fun t => decide (toDays today - toDays t.date ≤ 365))).foldl
        TempStats.update TempStats.default).calc_averages 365).into_stats) := by
  refine ⟨?_, ?_, ?_⟩ <;>
    simp only [get_stats, TempStatsCollection.into_stats_collection,
      foldl_last7, foldl_last30, foldl_last365, TempStatsCollection.default]

/-- Claim C1, amended: on the spec's worked example (today 2024-02-15), the
January 2024 bucket has total 350 minor units and category breakdown
`Food: 350`, and the February 2024 bucket has total 500 with denominator
clipped to 15 days; but January's daily average is `350/22/100` (the dataset
starts on January 10, so the denominator is clipped to the 22 days from
January 10 to February 1), not `350/31/100` as the claim states. -/
theorem claim_C1_amended :
    ((get_stats exTxs exToday).monthly.map (fun p => (p.1, p.2.total, p.2.per_day))) =
      [((2024, 1), 350, (350 : ℚ) / 22 / 100), ((2024, 2), 500, (500 : ℚ) / 15 / 100)] ∧
    ((get_stats exTxs exToday).monthly.map (fun p => p.2.by_category)) =
      [[(Category.Miscellaneous ("Food"), 350)], [(Category.Rent, 500)]] := by
  have e1 : (350 : ℚ) / 22 / 100 = mkRat 7 44 := by rw [Rat.mkRat_eq_div]; norm_num
  have e2 : (500 : ℚ) / 15 / 100 = mkRat 1 3 := by rw [Rat.mkRat_eq_div]; norm_num
  rw [e1, e2]
  exact ⟨by decide, by decide⟩

/-- Claim C1, counterexample: on the claim's own input the January 2024 bucket's
`per_day` is `350/22/100`, which differs from the claimed `350/31/100`. -/
theorem claim_C1_counterexample :
    ((get_stats exTxs exToday).monthly.map (fun p => (p.1, p.2.per_day))).head? =
      some ((2024, 1), (350 : ℚ) / 22 / 100) ∧
    (350 : ℚ) / 22 / 100 ≠ (350 : ℚ) / 31 / 100 := by
  have e1 : (350 : ℚ) / 22 / 100 = mkRat 7 44 := by rw [Rat.mkRat_eq_div]; norm_num
  refine ⟨?_, ?_⟩
  · rw [e1]
    decide
  · norm_num

/-- Claim C2: for a single transaction of 100 minor units on 2023-01-01 and
today 2024-02-15, the 2023 yearly bucket covers the whole calendar year, so the
claim requires denominator 365; the code instead uses 364 days (its yearly
period end is the last day of the year, `Jan 1 of Y+1 minus one day`, instead
of `Jan 1 of Y+1` — unlike the monthly loop, which adds the day back), giving
`per_day = 100/100/364`. -/
theorem claim_C2_yearly_denominator :
    ((get_stats ex2Txs exToday).yearly.map (fun p => (p.1, p.2.per_day))) =
      [(2023, (100 : ℚ) / 100 / 364)] ∧
    days_in_year ⟨2023, 1, 1⟩ = 365 ∧
    (100 : ℚ) / 100 / 364 ≠ (100 : ℚ) / 100 / 365 := by
  have e1 : (100 : ℚ) / 100 / 364 = mkRat 1 364 := by rw [Rat.mkRat_eq_div]; norm_num
  refine ⟨?_, by decide, ?_⟩
  · rw [e1]
    decide
  · norm_num

/-- Claim C3: in every bucket produced by `get_stats` (yearly, monthly and the
three rolling windows), the sum of the `by_category` subtotals equals the
bucket's `total`, exactly, in minor units. -/
theorem claim_C3 (txs : List Transaction) (today : Date) :
    ((get_stats txs today).yearly.all (fun p => sumVals p.2.by_category == p.2.total)) = true ∧
    ((get_stats txs today).monthly.all (fun p => sumVals p.2.by_category == p.2.total)) = true ∧
    sumVals (get_stats txs today).last_7_days.by_category =
      (get_stats txs today).last_7_days.total ∧
    sumVals (get_stats txs today).last_30_days.by_category =
      (get_stats txs today).last_30_days.total ∧
    sumVals (get_stats txs today).last_365_days.by_category =
      (get_stats txs today).last_365_days.total := by
  have hinv := foldl_allCatOk txs (toDays today) TempStatsCollection.default allCatOk_default
  obtain ⟨h1, h2, h3, h4, h5⟩ := hinv
  refine ⟨?_, ?_, ?_, ?_, ?_⟩
  · rw [List.all_eq_true]
    intro p hp
    simp only [get_stats, TempStatsCollection.into_stats_collection] at hp
    rw [(List.perm_insertionSort _ _).mem_iff] at hp
    rw [List.mem_map] at hp
    obtain ⟨q, hq, rfl⟩ := hp
    rw [List.mem_map] at hq
    obtain ⟨r0, hr0, rfl⟩ := hq
    have hok : catOk r0.2 := h1 r0 hr0
    simpa using catOk_into (catOk_calc _ hok)
  · rw [List.all_eq_true]
    intro p hp
    simp only [get_stats, TempStatsCollection.into_stats_collection] at hp
    rw [(List.perm_insertionSort _ _).mem_iff] at hp
    rw [List.mem_map] at hp
    obtain ⟨q, hq, rfl⟩ := hp
    rw [List.mem_map] at hq
    obtain ⟨r0, hr0, rfl⟩ := hq
    have hok : catOk r0.2 := h2 r0 hr0
    simpa using catOk_into (catOk_calc _ hok)
  · exact catOk_into (catOk_calc _ h3)
  · exact catOk_into (catOk_calc _ h4)
  · exact catOk_into (catOk_calc _ h5)

/-- Claim C4, amended: `into_stats` performs no unit conversion at all: it
copies `total`, `per_day`, `average_transaction` and `transaction_count`
verbatim and returns permutations (descending-sorted) of the three breakdown
lists with their minor-unit integer values unchanged. The division by 100
happens in `calc_averages` and `get_total` (for `per_day` and
`average_transaction`) and in the display layer, not in `into_stats`. -/
theorem claim_C4_amended (s : TempStats) :
    s.into_stats.total = s.total ∧
    s.into_stats.per_day = s.per_day ∧
    s.into_stats.average_transaction = s.average_transaction ∧
    s.into_stats.transaction_count = s.transaction_count ∧
    (s.into_stats.by_category).Perm s.by_category ∧
    (s.into_stats.by_payment_method).Perm s.by_payment_method ∧
    (s.into_stats.by_note).Perm s.by_note :=
  ⟨rfl, rfl, rfl, rfl, List.perm_insertionSort _ _, List.perm_insertionSort _ _,
    List.perm_insertionSort _ _⟩

/-- Claim C4, counterexample: the accumulator of the two `Food` transactions
totalling 350 minor units yields a snapshot whose category subtotal is the
integer 350 (minor units), whereas the spec's major-unit conversion
(`into_stats_spec_major`) would yield `350/100`; and `350 ≠ 350/100`. -/
theorem claim_C4_counterexample :
    ex4Temp.into_stats.by_category = [(Category.Miscellaneous ("Food"), 350)] ∧
    (into_stats_spec_major ex4Temp).by_category =
      [(Category.Miscellaneous ("Food"), (350 : ℚ) / 100)] ∧
    ((350 : ℚ) ≠ (350 : ℚ) / 100) := by
  have e1 : (350 : ℚ) / 100 = mkRat 7 2 := by rw [Rat.mkRat_eq_div]; norm_num
  refine ⟨by decide, ?_, by norm_num⟩
  · rw [e1]
    decide

/-- Claim C5, counterexample: with a single transaction dated 2020-01-01 and
today 2024-02-15, all three rolling buckets are finalized (`calc_averages` is
applied unconditionally, with no assertion and no abort) while holding zero
transactions — contradicting the claim that finalization with a zero
transaction count aborts loudly and never happens. -/
theorem claim_C5_counterexample :
    (get_stats ex5Txs exToday).last_7_days.transaction_count = 0 ∧
    (get_stats ex5Txs exToday).last_30_days.transaction_count = 0 ∧
    (get_stats ex5Txs exToday).last_365_days.transaction_count = 0 ∧
    (get_stats ex5Txs exToday).last_7_days.per_day = 0 := by
  refine ⟨by decide, by decide, by decide, by decide⟩

/-- Claim C5, amended: `calc_averages` contains no assertion and `get_stats`
finalizes the three rolling buckets unconditionally: their `per_day` always
equals `total/100/N` (the `f64` division is performed even when the bucket is
empty, in Rust silently yielding a non-finite value rather than aborting), and
the 7-day bucket's count is exactly the number of matching transactions, which
may be zero. -/
theorem claim_C5_amended (txs : List Transaction) (today : Date) :
    (get_stats txs today).last_7_days.per_day =
      ((get_stats txs today).last_7_days.total : ℚ) / 100 / 7 ∧
    (get_stats txs today).last_30_days.per_day =
      ((get_stats txs today).last_30_days.total : ℚ) / 100 / 30 ∧
    (get_stats txs today).last_365_days.per_day =
      ((get_stats txs today).last_365_days.total : ℚ) / 100 / 365 ∧
    (get_stats txs today).last_7_days.transaction_count =
      (txs.filter (fun t => decide (toDays today - toDays t.date ≤ 7))).length := by
  obtain ⟨h7, h30, h365⟩ := get_stats_rolling txs today
  refine ⟨?_, ?_, ?_, ?_⟩
  · rw [h7]
    simp [TempStats.into_stats, TempStats.calc_averages, divByInt_eq, get_total_eq]
  · rw [h30]
    simp [TempStats.into_stats, TempStats.calc_averages, divByInt_eq, get_total_eq]
  · rw [h365]
    simp [TempStats.into_stats, TempStats.calc_averages, divByInt_eq, get_total_eq]
  · rw [h7]
    simp only [TempStats.into_stats, TempStats.calc_averages, foldl_update_count]
    simp [TempStats.default]

/-- Claim C6: the three rolling-window buckets of `get_stats` use one uniform
membership convention — a transaction is counted in the `N`-day bucket exactly
when `today - date ≤ N` (`N` in 7, 30, 365) — and each is finalized with
denominator exactly `N`, with no clipping against the dataset's earliest date. -/
theorem claim_C6 (txs : List Transaction) (today : Date) :
    (get_stats txs today).last_7_days =
      ((((txs.filter (fun t => decide (toDays today - toDays t.date ≤ 7))).foldl
        TempStats.update TempStats.default).calc_averages 7).into_stats) ∧
    (get_stats txs today).last_30_days =
      ((((txs.filter (fun t => decide (toDays today - toDays t.date ≤ 30))).foldl
        TempStats.update TempStats.default).calc_averages 30).into_stats) ∧
    (get_stats txs today).last_365_days =
      ((((txs.filter (fun t => decide (toDays today - toDays t.date ≤ 365))).foldl
        TempStats.update TempStats.default).calc_averages 365).into_stats) :=
  get_stats_rolling txs today

/-- Claim C7: in every snapshot produced by `into_stats`, each of the three
breakdown lists is sorted by non-increasing subtotal value. -/
theorem claim_C7 (s : TempStats) :
    List.Pairwise (fun a b => b.2 ≤ a.2) s.into_stats.by_category ∧
    List.Pairwise (fun a b => b.2 ≤ a.2) s.into_stats.by_payment_method ∧
    List.Pairwise (fun a b => b.2 ≤ a.2) s.into_stats.by_note :=
  ⟨sortValDesc_sorted _, sortValDesc_sorted _, sortValDesc_sorted _⟩

/-- Claim C8, counterexample: `get_stats` reads `today` internally from the
wall clock (`Local::now()`), it is not a caller-supplied argument; modelling
that ambient read as an input, the same transaction list aggregated under two
different wall-clock dates produces different `StatsCollection` values, so the
output is not a function of the immutable transaction list alone as the claim's
interface description asserts. -/
theorem claim_C8_counterexample : get_stats ex8Txs exToday ≠ get_stats ex8Txs ex8Today := by
  decide

/-- Claim C8, amended: even with the wall-clock date fixed, the program is
deterministic only up to the per-process randomized `HashMap` iteration order,
which the stable sort of `into_stats` preserves among equal subtotals. For any
two runs (any two admissible iteration orders of the same accumulator), the
snapshots agree on `total`, `per_day`, `average_transaction` and
`transaction_count`, and their breakdown lists are descending-sorted
permutations of each other — so they can differ only in the relative order of
tied subtotals; and on the accumulator `exTiedTemp` with two tied categories,
two admissible iteration orders really do produce different (hence not
bit-identical) snapshots. -/
theorem claim_C8_amended :
    (∀ (s : TempStats) (lc1 lc2 : List (Category × Int)) (lp1 lp2 ln1 ln2 : List (String × Int)),
      lc1.Perm s.by_category → lc2.Perm s.by_category →
      lp1.Perm s.by_payment_method → lp2.Perm s.by_payment_method →
      ln1.Perm s.by_note → ln2.Perm s.by_note →
      (into_stats_order s lc1 lp1 ln1).total = (into_stats_order s lc2 lp2 ln2).total ∧
      (into_stats_order s lc1 lp1 ln1).per_day = (into_stats_order s lc2 lp2 ln2).per_day ∧
      (into_stats_order s lc1 lp1 ln1).average_transaction =
        (into_stats_order s lc2 lp2 ln2).average_transaction ∧
      (into_stats_order s lc1 lp1 ln1).transaction_count =
        (into_stats_order s lc2 lp2 ln2).transaction_count ∧
      ((into_stats_order s lc1 lp1 ln1).by_category).Perm
        ((into_stats_order s lc2 lp2 ln2).by_category) ∧
      ((into_stats_order s lc1 lp1 ln1).by_payment_method).Perm
        ((into_stats_order s lc2 lp2 ln2).by_payment_method) ∧
      ((into_stats_order s lc1 lp1 ln1).by_note).Perm
        ((into_stats_order s lc2 lp2 ln2).by_note)) ∧
    (∀ (s : TempStats) (lc : List (Category × Int)) (lp ln : List (String × Int)),
      List.Pairwise (fun a b => b.2 ≤ a.2) (into_stats_order s lc lp ln).by_category) ∧
    (([(Category.Books, 100), (Category.Rent, 100)] : List (Category × Int)).Perm
      exTiedTemp.by_category ∧
      into_stats_order exTiedTemp [(Category.Rent, 100), (Category.Books, 100)]
          [("", 200)] [("", 200)] ≠
        into_stats_order exTiedTemp [(Category.Books, 100), (Category.Rent, 100)]
          [("", 200)] [("", 200)]) := by
  refine ⟨?_, ?_, by decide, by decide⟩
  · intro s lc1 lc2 lp1 lp2 ln1 ln2 h1 h2 h3 h4 h5 h6
    refine ⟨rfl, rfl, rfl, rfl, ?_, ?_, ?_⟩
    · exact ((List.perm_insertionSort _ lc1).trans (h1.trans h2.symm)).trans
        (List.perm_insertionSort _ lc2).symm
    · exact ((List.perm_insertionSort _ lp1).trans (h3.trans h4.symm)).trans
        (List.perm_insertionSort _ lp2).symm
    · exact ((List.perm_insertionSort _ ln1).trans (h5.trans h6.symm)).trans
        (List.perm_insertionSort _ ln2).symm
  · intro s lc lp ln
    exact sortValDesc_sorted lc

/-- Witness for claim C8's amended theorem: the two admissible iteration orders
of the tied accumulator yield breakdown lists that are permutations of each
other (they hold the same entries, only the tie order differs). -/
theorem claim_C8_witness :
    ((into_stats_order exTiedTemp [(Category.Rent, 100), (Category.Books, 100)]
        [("", 200)] [("", 200)]).by_category).Perm
      ((into_stats_order exTiedTemp [(Category.Books, 100), (Category.Rent, 100)]
        [("", 200)] [("", 200)]).by_category) :=
  (claim_C8_amended.1 exTiedTemp _ _ _ _ _ _ (by decide) (by decide) (by decide) (by decide)
    (by decide) (by decide)).2.2.2.2.1

/-- Claim C9: `days_in_month` on any CE date in February returns 29 in leap
years and 28 otherwise; and for December the nominal period end used by the
monthly buckets rolls into January of the following year (so December has 31
days) — all computed by date subtraction through `toDays`, with no length
lookup table. -/
theorem claim_C9 :
    (∀ (y : Int) (d : Nat), 1 ≤ y →
      days_in_month ⟨y, 2, d⟩ = if isLeap y then 29 else 28) ∧
    (∀ y : Int, nominal_month_end y 12 + 1 = toDays ⟨y + 1, 1, 1⟩) ∧
    (∀ y : Int, 1 ≤ y → days_in_month ⟨y, 12, 1⟩ = 31) := by
  refine ⟨?_, ?_, ?_⟩
  · intro y d h
    simp only [days_in_month, year_roundtrip h, toDays, daysBeforeMonth]
    norm_num
    cases hL : isLeap y <;> simp [hL]
  · intro y
    simp [nominal_month_end]
  · intro y h
    have hs := leapCount_succ y
    simp only [days_in_month, year_roundtrip h, toDays, daysBeforeMonth]
    norm_num
    cases hL : isLeap y <;> simp [hL] at hs ⊢ <;> omega

/-- Witness for claim C9 at concrete inputs: February 2024 (leap) has 29 days,
February 2023 has 28, and December 2023 rolls into January 2024 with 31 days. -/
theorem claim_C9_witness :
    days_in_month ⟨2024, 2, 10⟩ = 29 ∧ days_in_month ⟨2023, 2, 10⟩ = 28 ∧
    nominal_month_end 2023 12 + 1 = toDays ⟨2024, 1, 1⟩ ∧
    days_in_month ⟨2023, 12, 1⟩ = 31 := by
  refine ⟨?_, ?_, claim_C9.2.1 2023, claim_C9.2.2 2023 (by norm_num)⟩
  · have h := claim_C9.1 2024 10 (by norm_num)
    rw [if_pos (by decide : isLeap 2024 = true)] at h
    exact h
  · have h := claim_C9.1 2023 10 (by norm_num)
    rw [if_neg (by decide : ¬ isLeap 2023 = true)] at h
    exact h

/-- Claim C10: category parsing round-trips on the fixed vocabulary — for every
`Category` other than a `Miscellaneous` with a nonempty label,
`fromStr (display c) = c`; any string that is not the display text of an
iterated variant parses as `Miscellaneous` carrying it verbatim; and
consequently the display text of `Miscellaneous "x"` does not parse back to
`Miscellaneous "x"`. -/
theorem claim_C10 :
    (∀ c : Category, (∀ a : String, c = Category.Miscellaneous a → a = "") →
      Category.fromStr c.display = c) ∧
    (∀ s : String, (∀ c ∈ categoryIter, c.display ≠ s) →
      Category.fromStr s = Category.Miscellaneous s) ∧
    Category.fromStr (Category.Miscellaneous ("x")).display ≠ Category.Miscellaneous ("x") := by
  refine ⟨?_, ?_, by decide⟩
  · intro c h
    cases c with
    | Miscellaneous a =>
        have ha : a = "" := h a rfl
        subst ha
        decide
    | _ => decide
  · intro s h
    have hn : categoryIter.find? (fun c => c.display == s) = none :=
      List.find?_eq_none.mpr (fun c hc => by simpa using h c hc)
    simp [Category.fromStr, hn]

/-- Witness for claim C10 at concrete inputs. -/
theorem claim_C10_witness :
    Category.fromStr (Category.display Category.Books) = Category.Books ∧
    Category.fromStr ("Pizza") = Category.Miscellaneous ("Pizza") :=
  ⟨claim_C10.1 Category.Books (fun a h => nomatch h), claim_C10.2.1 ("Pizza") (by decide)⟩
